import Mathlib

/-!
Shallow embedding of the synchronization core of the `odoo-shorepos-sync`
repository (`shorepos_sync/models/models.py` and
`shorepos_sync/models/shorepos_models.py`).

HTTP traffic is modelled by explicit response values handed to the embedded
functions (an oracle indexed by the call count for the pagination loop).
Timestamps are naturals, with `datetime.min` embedded as `0`; quantities are
integers; Odoo `Char`/`Datetime` fields use `""` / `Option.none` as the unset
(Python-falsy) value.  Fallible operations return `Except`-style results and
the unbounded `while True` pagination loop is given explicit fuel.
-/

/-- An HTTP error as raised by `response.raise_for_status()`: the status code
and the parsed `Retry-After` header (absent when the header is missing). -/
structure HttpError where
  status : Nat
  retryAfter : Option Nat
  deriving DecidableEq, Repr

/-- A JSON value appearing under a key of a mapping response: either a list of
items (items are opaque, modelled as naturals) or some non-list value. -/
inductive JVal where
  | jlist (xs : List Nat)
  | jother
  deriving DecidableEq, Repr

/-- A JSON mapping response body: the optional `results` key (any value), the
optional `data` key (list values, the only shape the code consumes), and
whether further keys exist (which decides Python truthiness of the dict). -/
structure DictResp where
  results : Option JVal
  data : Option (List Nat)
  hasOtherKeys : Bool
  deriving DecidableEq, Repr

/-- A parsed JSON response body: a bare list or a mapping. -/
inductive ApiResponse where
  | rlist (xs : List Nat)
  | rdict (d : DictResp)
  deriving DecidableEq, Repr

/-- Python truthiness test `not response` for a parsed JSON body: an empty
list and an empty mapping are falsy. -/
def ApiResponse.falsy : ApiResponse → Bool
  | .rlist xs => xs.isEmpty
  | .rdict d => d.results.isNone && d.data.isNone && !d.hasOtherKeys

/-- A raw HTTP response delivered by the transport: status code, optional
`Retry-After` header, and the parsed JSON body (meaningful on success). -/
structure HttpResponse where
  status : Nat
  retryAfter : Option Nat
  body : ApiResponse
  deriving DecidableEq, Repr

/-- `ShoreposConnector.shorepos_api_request` (models.py lines 291-314): sends
one request and calls `response.raise_for_status()`, which raises an
`HTTPError` exactly for status codes in `[400, 600)`; otherwise the parsed
JSON body is returned.  The function performs no retry of its own. -/
def shorepos_api_request (r : HttpResponse) : Except HttpError ApiResponse :=
  if 400 ≤ r.status ∧ r.status < 600 then
    .error ⟨r.status, r.retryAfter⟩
  else
    .ok r.body

/-- Item extraction from a mapping response inside
`shorepos_api_request_all` (models.py lines 350-357): a `results` key holding
a list wins; otherwise a present `data` key is used. -/
def dictItems (d : DictResp) : Option (List Nat) :=
  match d.results with
  | some (JVal.jlist xs) => some xs
  | _ => d.data

/-- Observable state of the `shorepos_api_request_all` loop: accumulated
items, current `page` parameter, number of requests issued, the `page` value
sent with each request in order, total seconds slept on 429 backoff, and the
number of 50 ms inter-page sleeps. -/
structure ReqAllState where
  itemsAll : List Nat
  page : Nat
  calls : Nat
  pagesRequested : List Nat
  retrySleep : Nat
  pageSleeps : Nat
  deriving DecidableEq, Repr

/-- Result of running the pagination loop with finite fuel: normal
termination with the collected items, a propagated HTTP error, or fuel
exhaustion (the Python loop would still be running). -/
inductive ReqAllResult where
  | ok (items : List Nat) (st : ReqAllState)
  | err (e : HttpError) (st : ReqAllState)
  | outOfFuel (st : ReqAllState)
  deriving DecidableEq, Repr

/-- The `while True` body of `shorepos_api_request_all` (models.py lines
337-376), fuel-indexed.  `oracle` maps the index of each issued request to
the transport's response.  Faithful to the source: a falsy response breaks; a
bare list extends and breaks; a mapping with extractable items extends, then
breaks when the page is shorter than `limit`, else increments the page and
sleeps 50 ms; a mapping without extractable items falls through and loops
with unchanged state; an HTTP 429 sleeps `Retry-After` (default 1) and
retries the same page; any other `HTTPError` propagates. -/
def reqAllLoop (oracle : Nat → HttpResponse) (limit : Nat) :
    Nat → ReqAllState → ReqAllResult
  | 0, st => .outOfFuel st
  | fuel + 1, st =>
    let r := oracle st.calls
    let st1 : ReqAllState :=
      { st with calls := st.calls + 1, pagesRequested := st.pagesRequested ++ [st.page] }
    match shorepos_api_request r with
    | .error e =>
      if e.status = 429 then
        reqAllLoop oracle limit fuel
          { st1 with retrySleep := st1.retrySleep + e.retryAfter.getD 1 }
      else
        .err e st1
    | .ok body =>
      if body.falsy then .ok st1.itemsAll st1
      else
        match body with
        | .rlist xs =>
          .ok (st1.itemsAll ++ xs) { st1 with itemsAll := st1.itemsAll ++ xs }
        | .rdict d =>
          match dictItems d with
          | some items =>
            let st2 := { st1 with itemsAll := st1.itemsAll ++ items }
            if items.length < limit then .ok st2.itemsAll st2
            else
              reqAllLoop oracle limit fuel
                { st2 with page := st2.page + 1, pageSleeps := st2.pageSleeps + 1 }
          | none => reqAllLoop oracle limit fuel st1

/-- Initial state of the pagination loop: no items, `page = 1`. -/
def reqAllInit : ReqAllState := ⟨[], 1, 0, [], 0, 0⟩

/-- `ShoreposConnector.shorepos_api_request_all` (models.py lines 316-378):
sets `limit` to the caller's value or 100 (`params.setdefault`), starts at
page 1 and runs the pagination loop. -/
def shorepos_api_request_all (oracle : Nat → HttpResponse)
    (paramsLimit : Option Nat) (fuel : Nat) : ReqAllResult :=
  reqAllLoop oracle (paramsLimit.getD 100) fuel reqAllInit

/-- Python truthiness of an optional string field (`.get` on a JSON mapping,
or an Odoo `Char` field read as a plain string wrapped in `some`): truthy iff
present and non-empty. -/
def strTruthy : Option String → Bool
  | none => false
  | some s => s ≠ ""

/-- Python truthiness of an optional integer (`.get('expires_in')`): truthy
iff present and non-zero. -/
def natTruthy : Option Nat → Bool
  | none => false
  | some n => n ≠ 0

/-- The connector configuration fields read by `shorepos_token_get`
(models.py lines 34-45).  Unset `Char` fields are `""`, the unset `Integer`
is `0`, the unset `Datetime` is `none`. -/
structure TokenConfig where
  settings_shorepos_store_identifier : String
  settings_shorepos_api_endpoint_url : String
  settings_shorepos_client_id : String
  settings_shorepos_client_secret : String
  settings_shorepos_access_token : String
  settings_shorepos_refresh_token : String
  settings_shorepos_token_expiry_date : Option Nat
  settings_shorepos_timeout : Nat
  deriving DecidableEq, Repr

/-- The parsed JSON body of a successful `POST /auth/token/` response: the
fields `shorepos_token_get` reads via `.get`. -/
structure TokenResponse where
  access_token : Option String
  refresh_token : Option String
  expires_in : Option Nat
  deriving DecidableEq, Repr

/-- Outcome of the token HTTP call: a `requests.RequestException` (which
covers connection failures and `raise_for_status` on non-2xx), or a parsed
successful response. -/
inductive TokenHttp where
  | reqError
  | success (resp : TokenResponse)
  deriving DecidableEq, Repr

/-- How `shorepos_token_get` returns to its caller: raising a `UserError`,
returning `False`, or falling through (returning `None`). -/
inductive TokenRet where
  | raisedUserError
  | returnedFalse
  | returnedNone
  deriving DecidableEq, Repr

/-- Observable outcome of `shorepos_token_get`: the control-flow result,
whether an HTTP request was issued at all, and the configuration state after
the call (equal to the input when nothing was persisted). -/
structure TokenGetResult where
  ret : TokenRet
  madeRequest : Bool
  cfg : TokenConfig
  deriving DecidableEq, Repr

/-- The fail-fast configuration check of `shorepos_token_get` (models.py
lines 240-247): every listed setting must be Python-truthy. -/
def tokenConfigOk (cfg : TokenConfig) : Bool :=
  cfg.settings_shorepos_store_identifier ≠ "" &&
  cfg.settings_shorepos_api_endpoint_url ≠ "" &&
  cfg.settings_shorepos_client_id ≠ "" &&
  cfg.settings_shorepos_client_secret ≠ "" &&
  cfg.settings_shorepos_refresh_token ≠ "" &&
  cfg.settings_shorepos_timeout ≠ 0

/-- `ShoreposConnector.shorepos_token_get` (models.py lines 236-289).
If any required setting is missing it logs and returns `False` before any
network activity.  A `RequestException` is re-raised as `UserError`.  On a
parsed 2xx body: a falsy `access_token` returns `False` with nothing
persisted; otherwise `api_data` collects the access token (always), the new
refresh token (only when truthy and different from the stored one), and an
expiry of now plus `expires_in` (only when `expires_in` is truthy), and the
collected fields are written. -/
def shorepos_token_get (cfg : TokenConfig) (now : Nat) (http : TokenHttp) :
    TokenGetResult :=
  if !tokenConfigOk cfg then
    ⟨.returnedFalse, false, cfg⟩
  else
    match http with
    | .reqError => ⟨.raisedUserError, true, cfg⟩
    | .success resp =>
      if !strTruthy resp.access_token then
        ⟨.returnedFalse, true, cfg⟩
      else
        let cfg1 :=
          { cfg with settings_shorepos_access_token := resp.access_token.getD "" }
        let cfg2 :=
          if strTruthy resp.refresh_token &&
              resp.refresh_token.getD "" ≠ cfg.settings_shorepos_refresh_token then
            { cfg1 with settings_shorepos_refresh_token := resp.refresh_token.getD "" }
          else cfg1
        let cfg3 :=
          if natTruthy resp.expires_in then
            { cfg2 with
                settings_shorepos_token_expiry_date := some (now + resp.expires_in.getD 0) }
          else cfg2
        ⟨.returnedNone, true, cfg3⟩

/-- The context flags read by the overridden `stock.quant` `write`
(shorepos_models.py line 20). -/
structure QuantWriteCtx where
  from_stock_move : Bool
  from_external_sync : Bool
  deriving DecidableEq, Repr

/-- The values dict passed to `stock.quant` `write`, as the repository's own
code produces it: an optional new `quantity` (no caller in the repository
passes `stock_quantity_last_update` itself). -/
structure QuantWriteValues where
  quantity : Option Int
  deriving DecidableEq, Repr

/-- `StockQuant.write` (shorepos_models.py lines 18-23): returns the
`stock_quantity_last_update` assignment that the override injects into the
values handed to `super().write` — `some now` exactly when the values carry
`quantity` and neither the `from_stock_move` nor the `from_external_sync`
context marker is set. -/
def StockQuant.write (ctx : QuantWriteCtx) (v : QuantWriteValues) (now : Nat) :
    Option Nat :=
  if v.quantity.isSome && !ctx.from_stock_move && !ctx.from_external_sync then
    some now
  else
    none

/-- The context attached to the remote-wins local quantity write of the stock
stage (models.py line 547): `with_context(from_external_sync=True)`. -/
def stockStageRemoteWinsCtx : QuantWriteCtx := ⟨false, true⟩

/-- The per-product inputs of the stock comparison
(`odoo_shorepos_products_stock_quantity_sync`): whether a matching local
`stock.quant` exists, its `stock_quantity_last_update` (none when unset), the
product's legacy `woocommerce_last_sync` (none when absent), and the local
available quantity. -/
structure StockProduct where
  quantExists : Bool
  stock_quantity_last_update : Option Nat
  woocommerce_last_sync : Option Nat
  qty_available : Int
  deriving DecidableEq, Repr

/-- A remote stock entry from the Shore POS products map: `quantity` and the
parsed, UTC-normalised `time_modified`. -/
structure StockInfo where
  quantity : Int
  time_modified : Nat
  deriving DecidableEq, Repr

/-- The action the stock stage performs for one product. -/
inductive StockSyncAction where
  | noop
  | remoteWinsWrite (newQty : Int)
  | remoteWinsCreate (newQty : Int)
  | localWinsPush (delta : Int)
  deriving DecidableEq, Repr

/-- The decision core of
`ShoreposConnector.odoo_shorepos_products_stock_quantity_sync` (models.py
lines 502-587).  No remote stock entry: nothing happens.  An existing quant
whose quantity already equals the remote quantity: nothing happens.
Otherwise the three recency signals are read (each falling back to
`datetime.min`, embedded as 0) and `max` is compared with the remote
timestamp: `latest == remote` takes the remote-wins branch (write into the
existing quant, flagged `from_external_sync`, or create a new quant);
otherwise the local-wins branch pushes the delta `qty_available - remote`. -/
def odoo_shorepos_products_stock_quantity_sync (p : StockProduct)
    (info : Option StockInfo) : StockSyncAction :=
  match info with
  | none => .noop
  | some i =>
    if p.quantExists && i.quantity = p.qty_available then .noop
    else
      let odoo_stock_quantity_last_update :=
        if p.quantExists then p.stock_quantity_last_update.getD 0 else 0
      let shorepos_date_modified_gmt := i.time_modified
      let woocommerce_last_sync := p.woocommerce_last_sync.getD 0
      let latest_timestamp :=
        max (max odoo_stock_quantity_last_update shorepos_date_modified_gmt)
          woocommerce_last_sync
      if latest_timestamp = shorepos_date_modified_gmt then
        if p.quantExists then .remoteWinsWrite i.quantity
        else .remoteWinsCreate i.quantity
      else
        .localWinsPush (p.qty_available - i.quantity)

/-- The `product.template` fields read by the push stage
(`odoo_to_shorepos_products_sync`).  Unset `Char` fields are `""`, the unset
`Datetime` is `none`. -/
structure PushProduct where
  sync_to_shorepos : Bool
  active : Bool
  default_code : String
  product_language_code : String
  shorepos_id : String
  shorepos_store_identifier : String
  odoo_to_shorepos_last_sync : Option Nat
  write_date : Nat
  deriving DecidableEq, Repr

/-- The push stage's search conditions (models.py lines 682-688): sync
enabled, active, non-empty SKU code, and — only when a language filter is
configured — a matching `product_language_code`. -/
def pushSelected (langFilter : String) (p : PushProduct) : Bool :=
  p.sync_to_shorepos && p.active && p.default_code ≠ "" &&
    (langFilter = "" || p.product_language_code = langFilter)

/-- The "to sync" filter of the push stage (models.py line 691):
`not odoo_product.odoo_to_shorepos_last_sync or
odoo_to_shorepos_last_sync < write_date`. -/
def pushToSync (p : PushProduct) : Bool :=
  match p.odoo_to_shorepos_last_sync with
  | none => true
  | some t => decide (t < p.write_date)

/-- A remote call issued by the push stage for one product. -/
inductive PushCall where
  | post
  | put
  deriving DecidableEq, Repr

/-- Outcome of the PUT `products/{id}` call attempted when an external id is
already set. -/
inductive PutOutcome where
  | ok
  | notFound404
  | httpError (status : Nat)
  | otherError
  deriving DecidableEq, Repr

/-- Outcome of a POST `products` call: `none` is success, `some status` is an
HTTP error. -/
def PostOutcome := Option Nat

/-- Result of processing one product in the push stage's `for` loop: the
product was skipped before any remote call, synced successfully, or its
exception was caught and logged (models.py lines 864-868) leaving it
unchanged.  Each constructor carries the product's state afterwards; the
`synced`/`errorLogged` constructors also record the product-level remote
calls issued, in order. -/
inductive PushStepResult where
  | skippedLongCode (p : PushProduct)
  | synced (calls : List PushCall) (p : PushProduct)
  | errorLogged (calls : List PushCall) (p : PushProduct)
  deriving DecidableEq, Repr

/-- The number of product-level remote calls a push step performed. -/
def PushStepResult.remoteCalls : PushStepResult → Nat
  | .skippedLongCode _ => 0
  | .synced calls _ => calls.length
  | .errorLogged calls _ => calls.length

/-- The product state after the push stage persists the linkage fields
(models.py lines 848-854): active store identifier, the id returned by the
remote, and now as last-push timestamp. -/
def pushLinkageWrite (store : String) (respId : String) (now : Nat)
    (p : PushProduct) : PushProduct :=
  { p with
      shorepos_store_identifier := store,
      shorepos_id := respId,
      odoo_to_shorepos_last_sync := some now }

/-- The loop body of `ShoreposConnector.odoo_to_shorepos_products_sync` for
one product (models.py lines 693-854), with the payload build, category, tax
and image sub-calls abstracted away.  A SKU code longer than 30 characters is
skipped before any remote call.  With an external id set, a PUT is attempted:
success updates the linkage fields from the response; a 404 falls back to a
POST; any other HTTP error is re-raised and caught by the per-product
handler, leaving the product unchanged.  Without an external id a POST is
issued, and on success the linkage fields are persisted. -/
def odoo_to_shorepos_products_sync_step (store : String) (p : PushProduct)
    (putOut : PutOutcome) (postOut : PostOutcome) (respId : String)
    (now : Nat) : PushStepResult :=
  if p.default_code ≠ "" && p.default_code.length > 30 then
    .skippedLongCode p
  else if p.shorepos_id ≠ "" then
    match putOut with
    | .ok => .synced [.put] (pushLinkageWrite store respId now p)
    | .notFound404 =>
      match postOut with
      | none => .synced [.put, .post] (pushLinkageWrite store respId now p)
      | some _ => .errorLogged [.put, .post] p
    | .httpError _ => .errorLogged [.put] p
    | .otherError => .errorLogged [.put] p
  else
    match postOut with
    | none => .synced [.post] (pushLinkageWrite store respId now p)
    | some _ => .errorLogged [.post] p

/-- The `product.template` linkage fields read and cleared by the delete
stage (`odoo_to_shorepos_products_delete`). -/
structure DelProduct where
  shorepos_store_identifier : String
  sync_to_shorepos : Bool
  shorepos_id : String
  odoo_to_shorepos_last_sync : Option Nat
  shorepos_stock_last_sync : Option Nat
  deriving DecidableEq, Repr

/-- The delete stage's search conditions (models.py line 654): matching store
identifier, sync disabled, non-null external id. -/
def deleteSelected (store : String) (p : DelProduct) : Bool :=
  p.shorepos_store_identifier = store && !p.sync_to_shorepos &&
    p.shorepos_id ≠ ""

/-- Outcome of the remote DELETE `products/{id}` call for one product. -/
inductive DeleteOutcome where
  | success
  | httpError (status : Nat)
  | otherError
  deriving DecidableEq, Repr

/-- Clearing of the local sync-linkage fields (models.py lines 664 and
673). -/
def deleteClearFields (p : DelProduct) : DelProduct :=
  { p with
      shorepos_store_identifier := "",
      shorepos_id := "",
      odoo_to_shorepos_last_sync := none,
      shorepos_stock_last_sync := none }

/-- The loop body of `ShoreposConnector.odoo_to_shorepos_products_delete` for
one product (models.py lines 659-677): a successful delete or a 404 clears
the linkage fields; any other `HTTPError` and any other exception are caught
and logged, leaving the product unchanged.  The function is total — no
exception propagates to the batch caller. -/
def odoo_to_shorepos_products_delete_step (p : DelProduct)
    (out : DeleteOutcome) : DelProduct :=
  match out with
  | .success => deleteClearFields p
  | .httpError status => if status = 404 then deleteClearFields p else p
  | .otherError => p

/-- The delete stage's `for` loop over the selected products, the `i`-th
processed product receiving the `i`-th remote outcome. -/
def odoo_to_shorepos_products_delete_go (outs : Nat → DeleteOutcome) :
    Nat → List DelProduct → List DelProduct
  | _, [] => []
  | i, p :: rest =>
    odoo_to_shorepos_products_delete_step p (outs i) ::
      odoo_to_shorepos_products_delete_go outs (i + 1) rest

/-- `ShoreposConnector.odoo_to_shorepos_products_delete` (models.py lines
651-677): search the products matching the delete conditions, then process
each in order. -/
def odoo_to_shorepos_products_delete (store : String)
    (products : List DelProduct) (outs : Nat → DeleteOutcome) :
    List DelProduct :=
  odoo_to_shorepos_products_delete_go outs 0
    (products.filter (deleteSelected store))

/-- Transport oracle for the single-short-page pagination scenario: every
request is answered with a 200 mapping whose `data` holds 29 items. -/
def oracleSinglePage29 : Nat → HttpResponse :=
  fun _ => ⟨200, none, .rdict ⟨none, some (List.range 29), false⟩⟩

/-- Transport oracle for the three-page pagination scenario: 100 items, then
100 items, then 40 items, all as 200 mappings under `data`. -/
def oracleThreePages240 : Nat → HttpResponse := fun n =>
  match n with
  | 0 => ⟨200, none, .rdict ⟨none, some (List.range' 0 100), false⟩⟩
  | 1 => ⟨200, none, .rdict ⟨none, some (List.range' 100 100), false⟩⟩
  | _ => ⟨200, none, .rdict ⟨none, some (List.range' 200 40), false⟩⟩

/-- Transport oracle for the rate-limit scenario: the first request is
answered 429 with `Retry-After: 2`, every later one with a 200 bare list. -/
def oracle429then200 : Nat → HttpResponse := fun n =>
  match n with
  | 0 => ⟨429, some 2, .rlist []⟩
  | _ => ⟨200, none, .rlist [4, 5, 6]⟩

/-- Transport oracle whose every response is a non-empty 200 mapping carrying
neither a `results` list nor a `data` key. -/
def oracleStuckDict : Nat → HttpResponse :=
  fun _ => ⟨200, none, .rdict ⟨some JVal.jother, none, false⟩⟩

/-- One iteration of the pagination loop on an HTTP 429 response: the loop
sleeps `Retry-After` (default 1) and retries without touching the collected
items or the page number. -/
lemma reqAllLoop_step_429 (oracle : Nat → HttpResponse) (limit fuel : Nat)
    (st : ReqAllState) (ra : Option Nat) (body : ApiResponse)
    (h : oracle st.calls = ⟨429, ra, body⟩) :
    reqAllLoop oracle limit (fuel + 1) st =
      reqAllLoop oracle limit fuel
        ⟨st.itemsAll, st.page, st.calls + 1, st.pagesRequested ++ [st.page],
          st.retrySleep + ra.getD 1, st.pageSleeps⟩ := by
  simp [reqAllLoop, h, shorepos_api_request]

/-- One iteration of the pagination loop on a non-429 HTTP error: the error
propagates to the caller unmodified. -/
lemma reqAllLoop_step_err (oracle : Nat → HttpResponse) (limit fuel : Nat)
    (st : ReqAllState) (s : Nat) (ra : Option Nat) (body : ApiResponse)
    (h : oracle st.calls = ⟨s, ra, body⟩) (h4 : 400 ≤ s) (h6 : s < 600)
    (hne : s ≠ 429) :
    reqAllLoop oracle limit (fuel + 1) st =
      .err ⟨s, ra⟩
        ⟨st.itemsAll, st.page, st.calls + 1, st.pagesRequested ++ [st.page],
          st.retrySleep, st.pageSleeps⟩ := by
  simp [reqAllLoop, h, shorepos_api_request, h4, h6, hne]

/-- Running the pagination loop through `k` consecutive 429 responses: the
same page is re-requested `k` further times, the backoff sleeps accumulate,
and nothing else changes. -/
lemma reqAllLoop_429_run (oracle : Nat → HttpResponse) (limit : Nat)
    (ra : Option Nat) (body : ApiResponse) (k : Nat) :
    ∀ (st : ReqAllState) (fuel : Nat),
      (∀ j, j < k → oracle (st.calls + j) = ⟨429, ra, body⟩) →
      reqAllLoop oracle limit (fuel + k) st =
        reqAllLoop oracle limit fuel
          ⟨st.itemsAll, st.page, st.calls + k,
            st.pagesRequested ++ List.replicate k st.page,
            st.retrySleep + k * ra.getD 1, st.pageSleeps⟩ := by
  induction k with
  | zero => intro st fuel _; simp
  | succ k ih =>
    intro st fuel h
    have hstep := reqAllLoop_step_429 oracle limit (fuel + k) st ra body
      (by simpa using h 0 (Nat.succ_pos k))
    have harith : fuel + (k + 1) = (fuel + k) + 1 := by omega
    rw [harith, hstep]
    have := ih ⟨st.itemsAll, st.page, st.calls + 1,
        st.pagesRequested ++ [st.page], st.retrySleep + ra.getD 1,
        st.pageSleeps⟩ fuel
      (by intro j hj
          simpa [Nat.add_assoc, Nat.add_comm 1 j] using h (j + 1) (by omega))
    rw [this]
    congr 1
    simp [List.replicate_succ, List.append_assoc]
    constructor
    · omega
    · ring

/-- One iteration of the pagination loop on a successful bare-list response:
the items are appended and the loop stops. -/
lemma reqAllLoop_step_ok_list (oracle : Nat → HttpResponse) (limit fuel : Nat)
    (st : ReqAllState) (s : Nat) (ra : Option Nat) (xs : List Nat)
    (h : oracle st.calls = ⟨s, ra, .rlist xs⟩) (hs : s < 400) :
    reqAllLoop oracle limit (fuel + 1) st =
      .ok (st.itemsAll ++ xs)
        ⟨st.itemsAll ++ xs, st.page, st.calls + 1,
          st.pagesRequested ++ [st.page], st.retrySleep, st.pageSleeps⟩ := by
  have hreq : shorepos_api_request (oracle st.calls) = .ok (.rlist xs) := by
    simp [shorepos_api_request, h]
    omega
  cases xs with
  | nil => simp [reqAllLoop, hreq, ApiResponse.falsy]
  | cons a l => simp [reqAllLoop, hreq, ApiResponse.falsy]

/-- One iteration of the pagination loop on a successful mapping response
whose extracted items number fewer than the page limit: the items are
appended and the loop stops. -/
lemma reqAllLoop_step_ok_dict_short (oracle : Nat → HttpResponse)
    (limit fuel : Nat) (st : ReqAllState) (s : Nat) (ra : Option Nat)
    (d : DictResp) (items : List Nat)
    (h : oracle st.calls = ⟨s, ra, .rdict d⟩) (hs : s < 400)
    (hfalsy : ApiResponse.falsy (.rdict d) = false)
    (hitems : dictItems d = some items) (hlen : items.length < limit) :
    reqAllLoop oracle limit (fuel + 1) st =
      .ok (st.itemsAll ++ items)
        ⟨st.itemsAll ++ items, st.page, st.calls + 1,
          st.pagesRequested ++ [st.page], st.retrySleep, st.pageSleeps⟩ := by
  have hreq : shorepos_api_request (oracle st.calls) = .ok (.rdict d) := by
    simp [shorepos_api_request, h]
    omega
  simp [reqAllLoop, hreq, hfalsy, hitems, hlen]

/-- One iteration of the pagination loop on a successful empty/falsy
response: the loop stops with the items collected so far. -/
lemma reqAllLoop_step_ok_falsy (oracle : Nat → HttpResponse)
    (limit fuel : Nat) (st : ReqAllState) (s : Nat) (ra : Option Nat)
    (body : ApiResponse)
    (h : oracle st.calls = ⟨s, ra, body⟩) (hs : s < 400)
    (hfalsy : body.falsy = true) :
    reqAllLoop oracle limit (fuel + 1) st =
      .ok st.itemsAll
        ⟨st.itemsAll, st.page, st.calls + 1,
          st.pagesRequested ++ [st.page], st.retrySleep, st.pageSleeps⟩ := by
  have hreq : shorepos_api_request (oracle st.calls) = .ok body := by
    simp [shorepos_api_request, h]
    omega
  simp [reqAllLoop, hreq, hfalsy]

/-- Composition lemma: after `k` consecutive 429 responses a successful
bare-list response ends the pagination loop, returning exactly that body's
items, having issued `k + 1` identical page-1 requests and slept `k` times
the parsed backoff. -/
lemma reqAllLoop_retry_then_success (oracle : Nat → HttpResponse)
    (ra : Option Nat) (body : ApiResponse) (xs : List Nat) (k : Nat)
    (h429 : ∀ j, j < k → oracle j = ⟨429, ra, body⟩)
    (h200 : oracle k = ⟨200, none, .rlist xs⟩) (fuel : Nat) :
    reqAllLoop oracle 100 (fuel + 1 + k) reqAllInit =
      .ok xs ⟨xs, 1, k + 1, List.replicate (k + 1) 1, k * ra.getD 1, 0⟩ := by
  have hrun := reqAllLoop_429_run oracle 100 ra body k reqAllInit (fuel + 1)
    (by intro j hj; simpa [reqAllInit] using h429 j hj)
  rw [hrun]
  have hstep := reqAllLoop_step_ok_list oracle 100 fuel
    ⟨[], 1, k, List.replicate k 1, k * ra.getD 1, 0⟩ 200 none xs
    (by simpa [reqAllInit] using h200) (by omega)
  simp [reqAllInit] at hstep ⊢
  rw [hstep]
  simp [List.replicate_succ']

/-- Claim C1 (amended): in the stock stage's recency comparison, when the
local manual-change timestamp equals the remote modified timestamp and that
value is the maximum of the three signals (and the quantities differ, so no
early exit fires), the tie resolves to remote: the remote-wins branch is
taken and the remote quantity is written into the existing local stock
record. -/
theorem C1_tie_resolves_to_remote (p : StockProduct) (i : StockInfo) (t : Nat)
    (hq : p.quantExists = true)
    (hne : i.quantity ≠ p.qty_available)
    (hl : p.stock_quantity_last_update = some t)
    (hr : i.time_modified = t)
    (hw : p.woocommerce_last_sync.getD 0 ≤ t) :
    odoo_shorepos_products_stock_quantity_sync p (some i) =
      .remoteWinsWrite i.quantity := by
  have hmax : max (max t t) (p.woocommerce_last_sync.getD 0) = t := by
    simp [Nat.max_self]
    omega
  simp [odoo_shorepos_products_stock_quantity_sync, hq, hne, hl, hr, hmax]
  exact hw

/-- Claim C1 counterexample: a product whose local manual-change timestamp
(5) equals the remote modified timestamp (5), that value being the maximum
of the three signals (legacy signal absent, so 0), takes the remote-wins
branch and writes the remote quantity 7 into the local stock record —
refuting the claim that equal local and remote timestamps never cause the
remote quantity to be written locally. -/
theorem C1_counterexample_equal_timestamps_write_remote :
    odoo_shorepos_products_stock_quantity_sync ⟨true, some 5, none, 3⟩
      (some ⟨7, 5⟩) = .remoteWinsWrite 7 ∧
    max (max ((some 5 : Option Nat).getD 0) 5) ((none : Option Nat).getD 0) = 5 := by
  constructor
  · rfl
  · decide

/-- Claim C1 witness: the amended tie-break theorem applied at a concrete
tied input. -/
theorem C1_tie_resolves_to_remote_witness :
    odoo_shorepos_products_stock_quantity_sync ⟨true, some 4, some 2, 10⟩
      (some ⟨3, 4⟩) = .remoteWinsWrite 3 :=
  C1_tie_resolves_to_remote ⟨true, some 4, some 2, 10⟩ ⟨3, 4⟩ 4 rfl
    (by decide) rfl rfl (by decide)

/-- Claim C2 (amended): the single-request operation raises on every HTTP
error status (4xx/5xx) including 429, propagating status and `Retry-After`
unmodified; the 429 retry — sleeping the server-supplied `Retry-After`
seconds (default 1 when absent) and re-issuing the identical request with no
retry cap — is implemented in the pagination wrapper, which returns the body
items of the first subsequent 2xx response after any number `k` of
consecutive 429s; non-429 HTTP errors propagate from the wrapper
unmodified. -/
theorem C2_429_retry_lives_in_request_all :
    (∀ r : HttpResponse, 400 ≤ r.status → r.status < 600 →
      shorepos_api_request r = .error ⟨r.status, r.retryAfter⟩) ∧
    (∀ (oracle : Nat → HttpResponse) (limit fuel : Nat) (st : ReqAllState)
        (s : Nat) (ra : Option Nat) (body : ApiResponse),
      oracle st.calls = ⟨s, ra, body⟩ → 400 ≤ s → s < 600 → s ≠ 429 →
      reqAllLoop oracle limit (fuel + 1) st =
        .err ⟨s, ra⟩
          ⟨st.itemsAll, st.page, st.calls + 1, st.pagesRequested ++ [st.page],
            st.retrySleep, st.pageSleeps⟩) ∧
    (∀ (oracle : Nat → HttpResponse) (ra : Option Nat) (body : ApiResponse)
        (xs : List Nat) (k : Nat),
      (∀ j, j < k → oracle j = ⟨429, ra, body⟩) →
      oracle k = ⟨200, none, .rlist xs⟩ → ∀ fuel,
      reqAllLoop oracle 100 (fuel + 1 + k) reqAllInit =
        .ok xs ⟨xs, 1, k + 1, List.replicate (k + 1) 1, k * ra.getD 1, 0⟩) := by
  refine ⟨?_, ?_, ?_⟩
  · intro r h4 h6
    simp [shorepos_api_request, h4, h6]
  · intro oracle limit fuel st s ra body h h4 h6 hne
    exact reqAllLoop_step_err oracle limit fuel st s ra body h h4 h6 hne
  · intro oracle ra body xs k h429 h200 fuel
    exact reqAllLoop_retry_then_success oracle ra body xs k h429 h200 fuel

/-- Claim C2 counterexample: the single-request operation applied to a 429
response with `Retry-After: 2` raises the HTTP error instead of sleeping and
re-issuing the request — refuting the claim that the single-request
operation itself retries on 429 and returns a later 2xx body. -/
theorem C2_counterexample_request_raises_on_429 :
    shorepos_api_request ⟨429, some 2, .rlist [4, 5, 6]⟩ =
      .error ⟨429, some 2⟩ := by
  rfl

/-- Claim C2 witness: one 429 with `Retry-After: 2` followed by a 200 list
response makes the pagination wrapper issue two identical page-1 requests,
sleep 2 seconds, and return the 200 body. -/
theorem C2_429_retry_lives_in_request_all_witness :
    reqAllLoop oracle429then200 100 2 reqAllInit =
      .ok [4, 5, 6] ⟨[4, 5, 6], 1, 2, List.replicate 2 1, 1 * 2, 0⟩ := by
  have h := C2_429_retry_lives_in_request_all.2.2 oracle429then200 (some 2)
    (.rlist []) [4, 5, 6] 1
    (by intro j hj
        have hj0 : j = 0 := by omega
        subst hj0
        rfl)
    rfl 0
  simpa using h

set_option maxRecDepth 4000 in
/-- Claim C3: the pagination wrapper stops as soon as a successful response
is empty/falsy, or a mapping page's extracted item count is below the
requested limit, and a bare-list response is a single terminal page; with
the default limit 100, one mapping response carrying 29 items under `data`
yields exactly one request returning those 29 items, and responses of 100,
100 and 40 items yield exactly 3 requests returning all 240 items in
order. -/
theorem C3_request_all_pagination :
    (∀ (oracle : Nat → HttpResponse) (limit fuel : Nat) (st : ReqAllState)
        (s : Nat) (ra : Option Nat) (body : ApiResponse),
      oracle st.calls = ⟨s, ra, body⟩ → s < 400 → body.falsy = true →
      reqAllLoop oracle limit (fuel + 1) st =
        .ok st.itemsAll
          ⟨st.itemsAll, st.page, st.calls + 1, st.pagesRequested ++ [st.page],
            st.retrySleep, st.pageSleeps⟩) ∧
    (∀ (oracle : Nat → HttpResponse) (limit fuel : Nat) (st : ReqAllState)
        (s : Nat) (ra : Option Nat) (d : DictResp) (items : List Nat),
      oracle st.calls = ⟨s, ra, .rdict d⟩ → s < 400 →
      ApiResponse.falsy (.rdict d) = false →
      dictItems d = some items → items.length < limit →
      reqAllLoop oracle limit (fuel + 1) st =
        .ok (st.itemsAll ++ items)
          ⟨st.itemsAll ++ items, st.page, st.calls + 1,
            st.pagesRequested ++ [st.page], st.retrySleep, st.pageSleeps⟩) ∧
    (∀ (oracle : Nat → HttpResponse) (limit fuel : Nat) (st : ReqAllState)
        (s : Nat) (ra : Option Nat) (xs : List Nat),
      oracle st.calls = ⟨s, ra, .rlist xs⟩ → s < 400 →
      reqAllLoop oracle limit (fuel + 1) st =
        .ok (st.itemsAll ++ xs)
          ⟨st.itemsAll ++ xs, st.page, st.calls + 1,
            st.pagesRequested ++ [st.page], st.retrySleep, st.pageSleeps⟩) ∧
    (∀ fuel, reqAllLoop oracleSinglePage29 100 (fuel + 1) reqAllInit =
      .ok (List.range 29) ⟨List.range 29, 1, 1, [1], 0, 0⟩) ∧
    (∀ fuel, reqAllLoop oracleThreePages240 100 (fuel + 3) reqAllInit =
      .ok (List.range' 0 240) ⟨List.range' 0 240, 3, 3, [1, 2, 3], 0, 2⟩) := by
  refine ⟨?_, ?_, ?_, ?_, ?_⟩
  · intro oracle limit fuel st s ra body h hs hfalsy
    exact reqAllLoop_step_ok_falsy oracle limit fuel st s ra body h hs hfalsy
  · intro oracle limit fuel st s ra d items h hs hfalsy hitems hlen
    exact reqAllLoop_step_ok_dict_short oracle limit fuel st s ra d items h hs
      hfalsy hitems hlen
  · intro oracle limit fuel st s ra xs h hs
    exact reqAllLoop_step_ok_list oracle limit fuel st s ra xs h hs
  · intro fuel
    rfl
  · intro fuel
    rfl

/-- Claim C3 witness: the short-page conjunct applied to the concrete
29-item oracle — one request, 29 items returned. -/
theorem C3_request_all_pagination_witness :
    reqAllLoop oracleSinglePage29 100 1 reqAllInit =
      .ok (List.range 29) ⟨List.range 29, 1, 1, [1], 0, 0⟩ := by
  have h := C3_request_all_pagination.2.1 oracleSinglePage29 100 0 reqAllInit
    200 none ⟨none, some (List.range 29), false⟩ (List.range 29) rfl
    (by decide) rfl rfl (by decide)
  simpa using h

/-- Claim C4 (amended): a product selected by the push stage whose external
id is unset and whose SKU code has length at most 30 gets exactly one create
(POST), after which its external id, the active store identifier, and now as
last-push timestamp are persisted; and a product whose external id is set
and whose content-modification timestamp is not later than its last-push
timestamp is excluded from the "to sync" set. -/
theorem C4_push_create_and_exclusion :
    (∀ (store langFilter : String) (p : PushProduct) (putOut : PutOutcome)
        (respId : String) (now : Nat),
      pushSelected langFilter p = true → pushToSync p = true →
      p.shorepos_id = "" → p.default_code.length ≤ 30 →
      odoo_to_shorepos_products_sync_step store p putOut none respId now =
        .synced [.post] (pushLinkageWrite store respId now p) ∧
      (pushLinkageWrite store respId now p).shorepos_id = respId ∧
      (pushLinkageWrite store respId now p).shorepos_store_identifier = store ∧
      (pushLinkageWrite store respId now p).odoo_to_shorepos_last_sync = some now) ∧
    (∀ (p : PushProduct) (t : Nat),
      p.shorepos_id ≠ "" → p.odoo_to_shorepos_last_sync = some t →
      p.write_date ≤ t → pushToSync p = false) := by
  constructor
  · intro store langFilter p putOut respId now _ _ hid hlen
    refine ⟨?_, rfl, rfl, rfl⟩
    have hskip : (p.default_code ≠ "" && p.default_code.length > 30) = false := by
      simp
      omega
    simp [odoo_to_shorepos_products_sync_step, hskip, hid]
    exact fun _ => hlen
  · intro p t hid hlast hle
    simp [pushToSync, hlast]
    omega

/-- Claim C4 counterexample: a product that is selected by the push stage
(sync enabled, active, non-empty SKU), is in the "to sync" set (never
synced), and has its external id unset, but whose SKU code is 31 characters
long, is skipped whole with zero remote calls — no POST is issued, refuting
the unrestricted claim. -/
theorem C4_counterexample_long_code_no_post :
    pushSelected "" ⟨true, true, "0123456789012345678901234567890", "", "", "", none, 7⟩ = true ∧
    pushToSync ⟨true, true, "0123456789012345678901234567890", "", "", "", none, 7⟩ = true ∧
    (⟨true, true, "0123456789012345678901234567890", "", "", "", none, 7⟩ : PushProduct).shorepos_id = "" ∧
    odoo_to_shorepos_products_sync_step "store1"
        ⟨true, true, "0123456789012345678901234567890", "", "", "", none, 7⟩
        .ok none "newid" 10 =
      .skippedLongCode ⟨true, true, "0123456789012345678901234567890", "", "", "", none, 7⟩ ∧
    (odoo_to_shorepos_products_sync_step "store1"
        ⟨true, true, "0123456789012345678901234567890", "", "", "", none, 7⟩
        .ok none "newid" 10).remoteCalls = 0 := by
  refine ⟨rfl, rfl, rfl, ?_, ?_⟩ <;> rfl

/-- Claim C4 witness: the create-and-persist half applied to a concrete
never-synced product with a short SKU. -/
theorem C4_push_create_and_exclusion_witness :
    odoo_to_shorepos_products_sync_step "store1"
        ⟨true, true, "SKU-1", "", "", "", none, 7⟩ .ok none "rid9" 10 =
      .synced [.post]
        (pushLinkageWrite "store1" "rid9" 10
          ⟨true, true, "SKU-1", "", "", "", none, 7⟩) :=
  (C4_push_create_and_exclusion.1 "store1" ""
    ⟨true, true, "SKU-1", "", "", "", none, 7⟩ .ok "rid9" 10 rfl rfl rfl
    (by decide)).1

/-- Claim C5: on a parsed 2xx token response with a valid configuration, the
operation persists the access token always, persists the refresh token
exactly when one was returned that is truthy and different from the stored
one, and persists an expiry of now plus `expires_in` exactly when
`expires_in` is truthy; a 2xx response lacking a (truthy) access token
returns failure without raising and with the configuration unchanged. -/
theorem C5_token_success_persistence (cfg : TokenConfig) (now : Nat)
    (resp : TokenResponse) (hok : tokenConfigOk cfg = true) :
    (strTruthy resp.access_token = false →
      shorepos_token_get cfg now (.success resp) = ⟨.returnedFalse, true, cfg⟩) ∧
    (strTruthy resp.access_token = true →
      (shorepos_token_get cfg now (.success resp)).ret = .returnedNone ∧
      (shorepos_token_get cfg now (.success resp)).madeRequest = true ∧
      (shorepos_token_get cfg now (.success resp)).cfg.settings_shorepos_access_token
        = resp.access_token.getD "" ∧
      (shorepos_token_get cfg now (.success resp)).cfg.settings_shorepos_refresh_token
        = (if strTruthy resp.refresh_token &&
              resp.refresh_token.getD "" ≠ cfg.settings_shorepos_refresh_token
           then resp.refresh_token.getD ""
           else cfg.settings_shorepos_refresh_token) ∧
      (shorepos_token_get cfg now (.success resp)).cfg.settings_shorepos_token_expiry_date
        = (if natTruthy resp.expires_in then some (now + resp.expires_in.getD 0)
           else cfg.settings_shorepos_token_expiry_date)) := by
  constructor
  · intro hf
    simp [shorepos_token_get, hok, hf]
  · intro ht
    simp only [shorepos_token_get, hok, ht, Bool.not_true, Bool.false_eq_true,
      if_false, Bool.not_false, if_true]
    refine ⟨trivial, trivial, ?_, ?_, ?_⟩ <;> split_ifs <;> simp_all

/-- Claim C5 witness: a 2xx response with no access token yields failure and
leaves the configuration unchanged. -/
theorem C5_token_success_persistence_witness :
    shorepos_token_get ⟨"s1", "u1", "c1", "x1", "at0", "rt0", some 3, 30⟩ 100
        (.success ⟨none, some "rt1", some 60⟩) =
      ⟨.returnedFalse, true, ⟨"s1", "u1", "c1", "x1", "at0", "rt0", some 3, 30⟩⟩ :=
  (C5_token_success_persistence ⟨"s1", "u1", "c1", "x1", "at0", "rt0", some 3, 30⟩
    100 ⟨none, some "rt1", some 60⟩ (by decide)).1 rfl

/-- Claim C6: when any of store identifier, API base URL, client id, client
secret, refresh token, or timeout is unset, the token operation returns
failure without raising, issues no network request (the result is the same
for every possible transport outcome `http`), and leaves the stored
configuration unchanged. -/
theorem C6_missing_config_fails_fast (cfg : TokenConfig) (now : Nat)
    (http : TokenHttp)
    (h : cfg.settings_shorepos_store_identifier = "" ∨
         cfg.settings_shorepos_api_endpoint_url = "" ∨
         cfg.settings_shorepos_client_id = "" ∨
         cfg.settings_shorepos_client_secret = "" ∨
         cfg.settings_shorepos_refresh_token = "" ∨
         cfg.settings_shorepos_timeout = 0) :
    shorepos_token_get cfg now http = ⟨.returnedFalse, false, cfg⟩ := by
  have hbad : tokenConfigOk cfg = false := by
    simp [tokenConfigOk]
    rcases h with h | h | h | h | h | h <;> simp [h]
  simp [shorepos_token_get, hbad]

/-- Claim C6 witness: an otherwise-complete configuration with an empty
refresh token fails fast even though the transport would have succeeded. -/
theorem C6_missing_config_fails_fast_witness :
    shorepos_token_get ⟨"s1", "u1", "c1", "x1", "at0", "", some 3, 30⟩ 100
        (.success ⟨some "at1", some "rt1", some 60⟩) =
      ⟨.returnedFalse, false, ⟨"s1", "u1", "c1", "x1", "at0", "", some 3, 30⟩⟩ :=
  C6_missing_config_fails_fast ⟨"s1", "u1", "c1", "x1", "at0", "", some 3, 30⟩ 100
    (.success ⟨some "at1", some "rt1", some 60⟩)
    (Or.inr (Or.inr (Or.inr (Or.inr (Or.inl rfl)))))

/-- Claim C7: a product whose SKU code exceeds 30 characters is skipped
whole by the push stage — the step performs zero remote calls, raises no
error (the result carries the product unchanged, linkage fields included),
and the loop proceeds to the next product. -/
theorem C7_long_sku_whole_product_skip (store : String) (p : PushProduct)
    (putOut : PutOutcome) (postOut : PostOutcome) (respId : String) (now : Nat)
    (hlen : 30 < p.default_code.length) :
    odoo_to_shorepos_products_sync_step store p putOut postOut respId now =
      .skippedLongCode p ∧
    (odoo_to_shorepos_products_sync_step store p putOut postOut respId
        now).remoteCalls = 0 := by
  have hcode : p.default_code ≠ "" := by
    intro h
    rw [h] at hlen
    simp at hlen
  have hskip : (p.default_code ≠ "" && p.default_code.length > 30) = true := by
    simp [hcode]
    omega
  constructor
  · simp [odoo_to_shorepos_products_sync_step, hskip, hcode, hlen]
  · simp [odoo_to_shorepos_products_sync_step, hskip, hcode, hlen,
      PushStepResult.remoteCalls]

/-- Claim C7 witness: a 31-character SKU product is skipped unchanged. -/
theorem C7_long_sku_whole_product_skip_witness :
    odoo_to_shorepos_products_sync_step "store1"
        ⟨true, true, "0123456789012345678901234567890", "", "x9", "store1", some 2, 7⟩
        .ok none "rid9" 10 =
      .skippedLongCode
        ⟨true, true, "0123456789012345678901234567890", "", "x9", "store1", some 2, 7⟩ :=
  (C7_long_sku_whole_product_skip "store1"
    ⟨true, true, "0123456789012345678901234567890", "", "x9", "store1", some 2, 7⟩
    .ok none "rid9" 10 (by decide)).1

/-- Claim C8: for a product matching the delete stage's selection (flagged
sync-disabled, non-null external id, matching store identifier), a
successful remote delete or a 404 clears all local sync-linkage fields; any
other HTTP error and any other exception leave the product unchanged; the
step is a total function (no exception propagates to the batch caller) and
the stage's loop continues with the remaining products regardless of the
outcome. -/
theorem C8_delete_clear_on_success_or_404 (store : String) (p : DelProduct)
    (out : DeleteOutcome) (hsel : deleteSelected store p = true) :
    (out = .success ∨ out = .httpError 404 →
      odoo_to_shorepos_products_delete_step p out =
        ⟨"", p.sync_to_shorepos, "", none, none⟩) ∧
    (∀ s, out = .httpError s → s ≠ 404 →
      odoo_to_shorepos_products_delete_step p out = p) ∧
    (out = .otherError → odoo_to_shorepos_products_delete_step p out = p) ∧
    (∀ (outs : Nat → DeleteOutcome) (i : Nat) (rest : List DelProduct),
      odoo_to_shorepos_products_delete_go outs i (p :: rest) =
        odoo_to_shorepos_products_delete_step p (outs i) ::
          odoo_to_shorepos_products_delete_go outs (i + 1) rest) := by
  refine ⟨?_, ?_, ?_, ?_⟩
  · rintro (h | h) <;> subst h <;>
      simp [odoo_to_shorepos_products_delete_step, deleteClearFields]
  · intro s h hne
    subst h
    simp [odoo_to_shorepos_products_delete_step, hne]
  · intro h
    subst h
    rfl
  · intro outs i rest
    rfl

/-- Claim C8 witness: a 404 on delete clears the linkage fields of a
selected product. -/
theorem C8_delete_clear_on_success_or_404_witness :
    odoo_to_shorepos_products_delete_step ⟨"store1", false, "x9", some 2, some 3⟩
        (.httpError 404) = ⟨"", false, "", none, none⟩ :=
  (C8_delete_clear_on_success_or_404 "store1" ⟨"store1", false, "x9", some 2, some 3⟩
    (.httpError 404) rfl).1 (Or.inr rfl)

/-- Claim C9: for a stock-quant write carrying a quantity, the override sets
the manual-change timestamp to now exactly when neither the stock-move
marker nor the external-sync marker is in the context; in particular the
stock stage's remote-wins local write, which runs under
`from_external_sync=True`, leaves the manual-change timestamp untouched. -/
theorem C9_manual_change_timestamp_guard (ctx : QuantWriteCtx)
    (v : QuantWriteValues) (now : Nat) (hq : v.quantity.isSome = true) :
    (StockQuant.write ctx v now = some now ↔
      ctx.from_stock_move = false ∧ ctx.from_external_sync = false) ∧
    StockQuant.write stockStageRemoteWinsCtx v now = none := by
  constructor
  · rcases ctx with ⟨m, e⟩
    cases m <;> cases e <;> simp [StockQuant.write, hq]
  · simp [StockQuant.write, stockStageRemoteWinsCtx]

/-- Claim C9 witness: a marker-free quantity write stamps the timestamp; the
stock stage's externally-flagged write does not. -/
theorem C9_manual_change_timestamp_guard_witness :
    StockQuant.write ⟨false, false⟩ ⟨some 4⟩ 99 = some 99 ∧
    StockQuant.write stockStageRemoteWinsCtx ⟨some 4⟩ 99 = none :=
  ⟨((C9_manual_change_timestamp_guard ⟨false, false⟩ ⟨some 4⟩ 99 rfl).1).2
      ⟨rfl, rfl⟩,
    (C9_manual_change_timestamp_guard ⟨false, false⟩ ⟨some 4⟩ 99 rfl).2⟩

/-- Claim C10: when every response is a non-empty mapping carrying neither a
`results` list nor a `data` key, the pagination loop never terminates — for
every fuel bound it is still running, the collected items and the page
number are unchanged, and the identical request for the same page has been
re-issued once per iteration. -/
theorem C10_unrecognized_mapping_nontermination
    (oracle : Nat → HttpResponse) (limit : Nat) (d : DictResp)
    (hdata : d.data = none)
    (hres : d.results = none ∨ d.results = some JVal.jother)
    (hne : ApiResponse.falsy (.rdict d) = false)
    (h : ∀ n, (oracle n).status < 400 ∧ (oracle n).body = .rdict d) :
    ∀ (fuel : Nat) (st : ReqAllState),
      reqAllLoop oracle limit fuel st =
        .outOfFuel
          ⟨st.itemsAll, st.page, st.calls + fuel,
            st.pagesRequested ++ List.replicate fuel st.page,
            st.retrySleep, st.pageSleeps⟩ := by
  have hitems : dictItems d = none := by
    rcases hres with h1 | h1 <;> simp [dictItems, h1, hdata]
  intro fuel
  induction fuel with
  | zero => intro st; simp [reqAllLoop]
  | succ fuel ih =>
    intro st
    have hreq : shorepos_api_request (oracle st.calls) = .ok (.rdict d) := by
      have := h st.calls
      simp [shorepos_api_request, this.2]
      omega
    have hone : reqAllLoop oracle limit (fuel + 1) st =
        reqAllLoop oracle limit fuel
          ⟨st.itemsAll, st.page, st.calls + 1,
            st.pagesRequested ++ [st.page], st.retrySleep, st.pageSleeps⟩ := by
      simp [reqAllLoop, hreq, hne, hitems]
    rw [hone, ih]
    congr 1
    simp [List.replicate_succ, List.append_assoc]
    omega

/-- Claim C10 witness: three iterations against a mapping response with a
non-list `results` value and no `data` key leave the loop out of fuel with
page 1 requested three times and nothing collected. -/
theorem C10_unrecognized_mapping_nontermination_witness :
    reqAllLoop oracleStuckDict 100 3 reqAllInit =
      .outOfFuel ⟨[], 1, 3, [1, 1, 1], 0, 0⟩ := by
  have h := C10_unrecognized_mapping_nontermination oracleStuckDict 100
    ⟨some JVal.jother, none, false⟩ rfl (Or.inr rfl) rfl
    (fun n => ⟨Nat.lt_of_sub_eq_succ rfl, rfl⟩) 3 reqAllInit
  simpa [reqAllInit] using h
